import Mathlib

set_option maxRecDepth 8192

/-!
Verification of the ReAct orchestration loop of this repository.

The development shallowly embeds the Python sources:
  - agent_loop.py   (class ReActExecutor: parsing and the main loop)
  - llm_ollama.py   (class OllamaLLM: the oracle wrapper)
  - tools.py        (reset_state, tool registry conventions)

Modelling conventions:
  - Python strings are Lean String / List Char; all inputs considered are
    ASCII, so the ASCII readings of re \w, \s and str.strip are used.
  - Python dicts are association lists in insertion order; assignment to an
    existing key replaces the value in place (dictSet below).
  - json.loads / json.dumps are modelled for the JSON fragment the pipeline
    exchanges: objects, arrays, double-quoted strings with the standard
    escapes, integer numbers, true, false, null.  Float literals and the
    nonstandard NaN / Infinity tokens are outside the model; no theorem
    below depends on them.
  - Callables carried inside dicts (the injected content model) are opaque
    identifiers (PyVal.func).
  - Fallible Python calls (the oracle, a tool body) are Except values: an
    Except.error models a raised exception whose str() is the payload.
  - Recursion that Python performs by index arithmetic is given explicit
    fuel; every fuel bound used is sufficient for the scanned text, so the
    fueled function agrees with the Python loop it translates.
-/

/-! JSON values, the shape of the payloads the loop exchanges with tools.
Arrays and objects are given their own mutual list types so that every
function over them is a computable structural recursion. -/
mutual
inductive JValue where
  | null
  | bool (b : Bool)
  | num (n : Int)
  | str (s : String)
  | arr (elts : JArr)
  | obj (fields : JObj)
inductive JArr where
  | nil
  | cons (hd : JValue) (tl : JArr)
inductive JObj where
  | nil
  | cons (key : String) (val : JValue) (tl : JObj)
end

/-- Key membership in a JSON object, as the Python test k in d. -/
def JObj.hasKey : JObj → String → Bool
  | JObj.nil, _ => false
  | JObj.cons k _ t, key => k == key || JObj.hasKey t key

/-- Lookup in a JSON object, as Python dict indexing / get. -/
def JObj.get : JObj → String → Option JValue
  | JObj.nil, _ => none
  | JObj.cons k v t, key => if k == key then some v else JObj.get t key

/-- Replace the value stored under every occurrence of a key, in place. -/
def JObj.replaceVal : JObj → String → JValue → JObj
  | JObj.nil, _, _ => JObj.nil
  | JObj.cons k v t, key, nv =>
    JObj.cons k (if k == key then nv else v) (JObj.replaceVal t key nv)

/-- Append one binding at the end of a JSON object. -/
def JObj.snoc : JObj → String → JValue → JObj
  | JObj.nil, k, v => JObj.cons k v JObj.nil
  | JObj.cons k0 v0 t, k, v => JObj.cons k0 v0 (JObj.snoc t k v)

/-- Python dict assignment d[k] = v on a JSON object: replaces in place when
the key exists (keeping its position), otherwise appends the binding. -/
def JObj.set (o : JObj) (k : String) (v : JValue) : JObj :=
  if o.hasKey k then o.replaceVal k v else o.snoc k v

/-- The bindings of a JSON object as an association list. -/
def JObj.toList : JObj → List (String × JValue)
  | JObj.nil => []
  | JObj.cons k v t => (k, v) :: JObj.toList t

/-- Reverse of a JSON array accumulator. -/
def JArr.reverseAux : JArr → JArr → JArr
  | JArr.nil, acc => acc
  | JArr.cons h t, acc => JArr.reverseAux t (JArr.cons h acc)

/-- Reverse a JSON array. -/
def JArr.reverse (a : JArr) : JArr := JArr.reverseAux a JArr.nil

/-- The opening brace character, written by code to keep literals clean. -/
def openBrace : Char := Char.ofNat 123

/-- The closing brace character. -/
def closeBrace : Char := Char.ofNat 125

/-- The single-quote character. -/
def squote : Char := Char.ofNat 39

/-- Model of the ASCII part of Python regex class \s and of str.strip . -/
def pyIsSpace (c : Char) : Bool :=
  c = ' ' || c = '\t' || c = '\n' || c = '\r' || c = '\x0b' || c = '\x0c'

/-- Model of the ASCII part of Python regex class \w . -/
def isWordChar (c : Char) : Bool :=
  c.isAlphanum || c = '_'

/-- Model of Python str.strip on a character list. -/
def pyStripList (cs : List Char) : List Char :=
  ((cs.dropWhile pyIsSpace).reverse.dropWhile pyIsSpace).reverse

/-- Model of Python str.strip . -/
def pyStrip (s : String) : String := ⟨pyStripList s.data⟩

/-- Model of the Python slice s[:n]. -/
def pyTake (n : Nat) (s : String) : String := ⟨s.data.take n⟩

/-- Scanner behind containsSub: does pat occur in the list anywhere. -/
def listContainsSub (pat : List Char) : List Char → Bool
  | [] => pat.isEmpty
  | c :: t => pat.isPrefixOf (c :: t) || listContainsSub pat t

/-- Model of the Python membership test pat in s on strings. -/
def containsSub (s pat : String) : Bool := listContainsSub pat.data s.data

/-- Index of the first occurrence of pat, as Python str.find (none for -1). -/
def listFindSub (pat : List Char) : List Char → Option Nat
  | [] => if pat.isEmpty then some 0 else none
  | c :: t =>
    if pat.isPrefixOf (c :: t) then some 0
    else (listFindSub pat t).map (· + 1)

/-- Model of Python str.count for a nonempty pattern: non-overlapping
occurrences, scanning left to right.  The fuel argument dominates the list
length, so the scan always completes. -/
def listCountSubAux (pat : List Char) : Nat → List Char → Nat
  | 0, _ => 0
  | _ + 1, [] => 0
  | fuel + 1, c :: t =>
    if pat.isPrefixOf (c :: t) then 1 + listCountSubAux pat fuel ((c :: t).drop pat.length)
    else listCountSubAux pat fuel t

/-- Model of Python str.count for a nonempty pattern. -/
def listCountSub (pat s : List Char) : Nat := listCountSubAux pat (s.length + 1) s

/-- Model of Python str.replace for a nonempty pattern (fueled scan). -/
def pyReplaceAux (pat rep : List Char) : Nat → List Char → List Char
  | 0, s => s
  | _ + 1, [] => []
  | fuel + 1, c :: t =>
    if pat.isPrefixOf (c :: t) then rep ++ pyReplaceAux pat rep fuel ((c :: t).drop pat.length)
    else c :: pyReplaceAux pat rep fuel t

/-- Model of Python str.replace for a nonempty pattern. -/
def pyReplace (s pat rep : String) : String :=
  ⟨pyReplaceAux pat.data rep.data (s.data.length + 1) s.data⟩

/-- Model of Python str.startswith . -/
def pyStartsWith (s pre : String) : Bool := pre.data.isPrefixOf s.data

/-- Python dict lookup d.get(k) on an association list. -/
def dictGet {α : Type} (d : List (String × α)) (k : String) : Option α :=
  (d.find? (fun p => p.1 == k)).map (fun p => p.2)

/-- Python dict assignment d[k] = v: replaces the value in place when the key
exists, otherwise appends the pair, preserving insertion order. -/
def dictSet {α : Type} (d : List (String × α)) (k : String) (v : α) : List (String × α) :=
  if d.any (fun p => p.1 == k) then d.map (fun p => if p.1 == k then (k, v) else p)
  else d ++ [(k, v)]

/-- JSON whitespace skipped by the Python json scanner. -/
def jsonWs (c : Char) : Bool := c = ' ' || c = '\t' || c = '\n' || c = '\r'

/-- Skip JSON whitespace. -/
def skipJWs (cs : List Char) : List Char := cs.dropWhile jsonWs

/-- Value of a hexadecimal digit character, if any. -/
def parseHex (c : Char) : Option Nat :=
  if c.isDigit then some (c.toNat - 48)
  else if 'a' ≤ c ∧ c ≤ 'f' then some (c.toNat - 87)
  else if 'A' ≤ c ∧ c ≤ 'F' then some (c.toNat - 55)
  else none

/-- Numeric value of a digit string. -/
def digitsVal (ds : List Char) : Nat :=
  ds.foldl (fun n c => n * 10 + (c.toNat - 48)) 0

/-- Model of the strict json.loads string scanner, entered after the opening
double quote; returns the decoded text and the remainder after the closing
quote.  Raw control characters are rejected (strict mode); surrogate pairs
are not modelled (all inputs are ASCII). -/
def parseJString : Nat → List Char → Option (String × List Char)
  | 0, _ => none
  | _ + 1, [] => none
  | fuel + 1, c :: t =>
    if c = '"' then some ("", t)
    else if c = '\\' then
      match t with
      | [] => none
      | e :: t2 =>
        if e = '"' then (parseJString fuel t2).map (fun p => ("\"" ++ p.1, p.2))
        else if e = '\\' then (parseJString fuel t2).map (fun p => ("\\" ++ p.1, p.2))
        else if e = '/' then (parseJString fuel t2).map (fun p => ("/" ++ p.1, p.2))
        else if e = 'b' then (parseJString fuel t2).map (fun p => ("\x08" ++ p.1, p.2))
        else if e = 'f' then (parseJString fuel t2).map (fun p => ("\x0c" ++ p.1, p.2))
        else if e = 'n' then (parseJString fuel t2).map (fun p => ("\n" ++ p.1, p.2))
        else if e = 'r' then (parseJString fuel t2).map (fun p => ("\r" ++ p.1, p.2))
        else if e = 't' then (parseJString fuel t2).map (fun p => ("\t" ++ p.1, p.2))
        else if e = 'u' then
          match t2 with
          | h1 :: h2 :: h3 :: h4 :: t3 =>
            match parseHex h1, parseHex h2, parseHex h3, parseHex h4 with
            | some a, some b, some c2, some d =>
              (parseJString fuel t3).map
                (fun p => ((Char.ofNat (((a * 16 + b) * 16 + c2) * 16 + d)).toString ++ p.1, p.2))
            | _, _, _, _ => none
          | _ => none
        else none
    else if c.toNat < 32 then none
    else (parseJString fuel t).map (fun p => (c.toString ++ p.1, p.2))

/-- Model of the json.loads number scanner, restricted to integer literals;
a fraction or exponent part (a float) is outside the model and fails. -/
def parseJNumber (cs : List Char) : Option (Int × List Char) :=
  let cs1 := if cs.head? = some '-' then cs.drop 1 else cs
  let ds := cs1.takeWhile Char.isDigit
  let rest := cs1.dropWhile Char.isDigit
  if ds.isEmpty then none
  else if 1 < ds.length ∧ ds.head? = some '0' then none
  else
    let v : Int := if cs.head? = some '-' then -(Int.ofNat (digitsVal ds)) else Int.ofNat (digitsVal ds)
    match rest with
    | c :: _ => if c = '.' ∨ c = 'e' ∨ c = 'E' then none else some (v, rest)
    | [] => some (v, [])

/-- Work items of the json.loads scanner: a value, the members of an object
after its opening brace, or the items of an array after its bracket. -/
inductive JTask where
  | value (cs : List Char)
  | objMembers (cs : List Char) (first : Bool) (acc : JObj)
  | arrItems (cs : List Char) (first : Bool) (acc : JArr)

/-- Model of the json.loads recursive-descent scanner.  Duplicate object keys
keep the last value at the first position, as Python dict construction does.
The fuel passed by jsonLoads dominates the recursion depth. -/
def parseJ : Nat → JTask → Option (JValue × List Char)
  | 0, _ => none
  | fuel + 1, JTask.value cs =>
    match skipJWs cs with
    | [] => none
    | c :: t =>
      if c = '"' then (parseJString fuel t).map (fun p => (JValue.str p.1, p.2))
      else if c = openBrace then parseJ fuel (JTask.objMembers t true JObj.nil)
      else if c = '[' then parseJ fuel (JTask.arrItems t true JArr.nil)
      else if c = 't' then (if "rue".data.isPrefixOf t then some (JValue.bool true, t.drop 3) else none)
      else if c = 'f' then (if "alse".data.isPrefixOf t then some (JValue.bool false, t.drop 4) else none)
      else if c = 'n' then (if "ull".data.isPrefixOf t then some (JValue.null, t.drop 3) else none)
      else (parseJNumber (c :: t)).map (fun p => (JValue.num p.1, p.2))
  | fuel + 1, JTask.objMembers cs first acc =>
    match skipJWs cs with
    | [] => none
    | c :: t =>
      if c = closeBrace ∧ first = true then some (JValue.obj acc, t)
      else if c = '"' then
        match parseJString fuel t with
        | none => none
        | some (k, r1) =>
          match skipJWs r1 with
          | c2 :: r2 =>
            if c2 = ':' then
              match parseJ fuel (JTask.value r2) with
              | none => none
              | some (v, r3) =>
                match skipJWs r3 with
                | c3 :: r4 =>
                  if c3 = ',' then parseJ fuel (JTask.objMembers r4 false (acc.set k v))
                  else if c3 = closeBrace then some (JValue.obj (acc.set k v), r4)
                  else none
                | [] => none
            else none
          | [] => none
      else none
  | fuel + 1, JTask.arrItems cs first acc =>
    match skipJWs cs with
    | [] => none
    | c :: t =>
      if c = ']' ∧ first = true then some (JValue.arr acc.reverse, t)
      else
        match parseJ fuel (JTask.value (c :: t)) with
        | none => none
        | some (v, r1) =>
          match skipJWs r1 with
          | c2 :: r2 =>
            if c2 = ',' then parseJ fuel (JTask.arrItems r2 false (JArr.cons v acc))
            else if c2 = ']' then some (JValue.arr (JArr.cons v acc).reverse, r2)
            else none
          | [] => none

/-- Model of Python json.loads: parse one value and require that only
whitespace follows, else fail (a raised ValueError is modelled as none).
The fuel dominates the depth of any scan over the given text. -/
def jsonLoads (s : String) : Option JValue :=
  match parseJ (2 * s.data.length + 4) (JTask.value s.data) with
  | some (v, rest) => if (skipJWs rest).isEmpty then some v else none
  | none => none

/-- Lowercase hexadecimal digit, as json.dumps prints escapes. -/
def hexDigit (n : Nat) : Char :=
  if n < 10 then Char.ofNat (48 + n) else Char.ofNat (87 + (n - 10))

/-- Escaping of one character by json.dumps with ensure_ascii (characters
outside printable ASCII become \uXXXX; astral plane not modelled). -/
def jsonEscapeChar (c : Char) : String :=
  if c = '"' then "\\\""
  else if c = '\\' then "\\\\"
  else if c = '\n' then "\\n"
  else if c = '\t' then "\\t"
  else if c = '\r' then "\\r"
  else if c = '\x08' then "\\b"
  else if c = '\x0c' then "\\f"
  else if c.toNat < 32 ∨ 126 < c.toNat then
    "\\u" ++ String.mk [hexDigit (c.toNat / 4096 % 16), hexDigit (c.toNat / 256 % 16),
                        hexDigit (c.toNat / 16 % 16), hexDigit (c.toNat % 16)]
  else String.mk [c]

/-- json.dumps of a string. -/
def jsonDumpStr (s : String) : String :=
  "\"" ++ String.join (s.data.map jsonEscapeChar) ++ "\""

/-- Join with a separator, as str.join . -/
def joinSep (sep : String) : List String → String
  | [] => ""
  | [x] => x
  | x :: y :: t => x ++ sep ++ joinSep sep (y :: t)

/-! Model of json.dumps with its default separators and ensure_ascii, by
mutual structural recursion over the value. -/
mutual
def jsonDumps : JValue → String
  | JValue.null => "null"
  | JValue.bool b => if b then "true" else "false"
  | JValue.num n => toString n
  | JValue.str s => jsonDumpStr s
  | JValue.arr xs => "[" ++ joinSep ", " (jsonDumpsArr xs) ++ "]"
  | JValue.obj fs =>
    String.mk [openBrace] ++ joinSep ", " (jsonDumpsFields fs) ++ String.mk [closeBrace]
def jsonDumpsArr : JArr → List String
  | JArr.nil => []
  | JArr.cons v t => jsonDumps v :: jsonDumpsArr t
def jsonDumpsFields : JObj → List String
  | JObj.nil => []
  | JObj.cons k v t => (jsonDumpStr k ++ ": " ++ jsonDumps v) :: jsonDumpsFields t
end

/-- The literal marker matched by ReActExecutor._parse_action . -/
def actionMarker : String := "Action:"

/-- The literal marker matched by ReActExecutor._parse_action_input . -/
def actionInputMarker : String := "Action Input:"

/-- Model of ReActExecutor._parse_action (agent_loop.py line 50): the Python
search re.search of the pattern Action: followed by optional whitespace and
at least one word character, scanning for the leftmost match.  Since no
character is both whitespace and a word character, the regex matches at a
position exactly when, after the literal marker and all following
whitespace, a word character stands; group(1) is that word-character run
(its strip() is the identity on word characters). -/
def parseActionAux : List Char → Option String
  | [] => none
  | c :: t =>
    if actionMarker.data.isPrefixOf (c :: t) then
      let w := (((c :: t).drop actionMarker.data.length).dropWhile pyIsSpace).takeWhile isWordChar
      if w.isEmpty then parseActionAux t else some ⟨w⟩
    else parseActionAux t

/-- Model of ReActExecutor._parse_action . -/
def parseAction (text : String) : Option String := parseActionAux text.data

/-- Scanner behind the regex of ReActExecutor._parse_action_input : the
pattern Action Input: followed by optional whitespace and a brace, with
re.DOTALL, capturing from the brace to the end of the text.  The leftmost
position whose following non-whitespace character is an opening brace
matches; the capture group is returned. -/
def actionInputTail : List Char → Option (List Char)
  | [] => none
  | c :: t =>
    if actionInputMarker.data.isPrefixOf (c :: t) then
      let after := ((c :: t).drop actionInputMarker.data.length).dropWhile pyIsSpace
      if after.head? = some openBrace then some after else actionInputTail t
    else actionInputTail t

/-- Model of the brace-counting loop of ReActExecutor._parse_action_input
(agent_loop.py lines 70 to 79): index one past the brace that returns the
running count to zero, or zero when the braces never balance (json_end
keeps its initial value in the Python code). -/
def braceEndAux : List Char → Nat → Int → Nat
  | [], _, _ => 0
  | c :: t, i, n =>
    if c = openBrace then braceEndAux t (i + 1) (n + 1)
    else if c = closeBrace then
      if n - 1 = 0 then i + 1 else braceEndAux t (i + 1) (n - 1)
    else braceEndAux t (i + 1) n

/-- Index one past the matching close brace, or zero if the braces never
balance. -/
def braceEnd (cs : List Char) : Nat := braceEndAux cs 0 0

/-- The capture of the Action Input regex after strip and brace scan: the
json_str value of agent_loop.py line 82 or 84, when the regex matched. -/
def actionInputJsonStr (text : String) : Option (List Char) :=
  match actionInputTail text.data with
  | none => none
  | some captured =>
    let jsonText := pyStripList captured
    if 0 < braceEnd jsonText then some (jsonText.take (braceEnd jsonText))
    else some jsonText

/-- The repair pass of agent_loop.py line 92: replace every single quote by
a double quote. -/
def repairQuotes (cs : List Char) : List Char :=
  cs.map (fun c => if c = squote then '"' else c)

/-- Model of ReActExecutor._parse_action_input (agent_loop.py lines 57 to
96): regex capture, strip, brace scan, strict JSON parse, quote-repair
retry, and the empty dict on failure.  A parse that succeeds with a
non-object value cannot occur, because json_str begins with an opening
brace; the branch is kept total with the empty dict. -/
def parseActionInput (text : String) : JObj :=
  match actionInputJsonStr text with
  | none => JObj.nil
  | some jsonStr =>
    match jsonLoads ⟨jsonStr⟩ with
    | some (JValue.obj o) => o
    | some _ => JObj.nil
    | none =>
      match jsonLoads ⟨repairQuotes jsonStr⟩ with
      | some (JValue.obj o) => o
      | some _ => JObj.nil
      | none => JObj.nil

/-- The parsing strategies of the repaired chain, tried in order: strict
JSON parse, then the single-quote repair pass. -/
def parseStrategies : List (List Char → Option JValue) :=
  [fun cs => jsonLoads ⟨cs⟩, fun cs => jsonLoads ⟨repairQuotes cs⟩]

/-- First strategy that succeeds on the input, if any. -/
def firstSome {α β : Type} : List (α → Option β) → α → Option β
  | [], _ => none
  | f :: fs, x =>
    match f x with
    | some y => some y
    | none => firstSome fs x

/-- The Action Input extraction written as an ordered list of parsing
strategies: locate the payload as the code does (a brace directly after the
marker and optional whitespace, stripped, cut at the matching brace), then
try each strategy in turn, and return the empty dict when none succeeds. -/
def actionInputFallbackChain (text : String) : JObj :=
  match actionInputJsonStr text with
  | none => JObj.nil
  | some jsonStr =>
    match firstSome parseStrategies jsonStr with
    | some (JValue.obj o) => o
    | _ => JObj.nil

/-- The marker of a terminal reply. -/
def finalMarker : String := "Final Answer:"

/-- Model of agent_loop.py lines 135 to 150: when a reply holds more than
one Action: marker, cut it just before the second occurrence; the find with
start first + 1 is modelled by a find on the dropped list.  The unreachable
defensive arms return the reply unchanged, as the Python code leaves
response unchanged when its find returns a non-positive index. -/
def truncateMultiAction (s : String) : String :=
  if 1 < listCountSub actionMarker.data s.data then
    match listFindSub actionMarker.data s.data with
    | none => s
    | some first =>
      match (listFindSub actionMarker.data (s.data.drop (first + 1))).map (· + (first + 1)) with
      | none => s
      | some second => if 0 < second then ⟨s.data.take second⟩ else s
  else s

/-- Model of response.split of the marker, element one, stripped (agent_loop
line 154): the text between the first Final Answer: marker and the next
occurrence or the end.  Callers only use it when the marker occurs. -/
def finalAnswerText (s : String) : String :=
  match listFindSub finalMarker.data s.data with
  | none => ""
  | some i =>
    let after := s.data.drop (i + finalMarker.data.length)
    match listFindSub finalMarker.data after with
    | none => pyStrip ⟨after⟩
    | some j => pyStrip ⟨after.take j⟩

/-- A Python value carried in a tool argument dict: JSON data from the
parsed payload, or an injected callable identified opaquely. -/
inductive PyVal where
  | jval (v : JValue)
  | func (fid : Nat)

/-- A registered tool: receives the argument dict (with the injected content
model) and either returns an observation dict or raises (Except.error with
the str() of the exception). -/
def Tool : Type := List (String × PyVal) → Except String JObj

/-- One record of ReActExecutor.self.failures or of a failures list in a
returned dict.  ftype models the key type, errorVal the key error, and the
optional fields model keys present only in some record shapes. -/
structure FailureRecord where
  step : Nat
  ftype : String
  errorVal : JValue
  action : Option String
  responsePreview : Option String

/-- The mutable executor attributes that survive across calls to run:
self.history and self.failures, both set up in init and never reset by
run (reset_state from tools.py is a pass statement). -/
structure ExecState where
  history : List (String ⊕ JObj)
  failures : List FailureRecord

/-- The dict returned by ReActExecutor.run: status, and the keys that only
some return paths carry, as options. -/
structure RunResult where
  status : String
  error : Option String
  finalAnswer : Option String
  steps : Nat
  failures : Option (List FailureRecord)

/-- Message of agent_loop.py line 316. -/
def maxStepsMsg : String := "Max steps reached without Final Answer"

/-- Message of agent_loop.py line 200. -/
def noActionMsg : String := "No Action found in routing model response"

/-- Message of agent_loop.py line 169. -/
def prematureMsg : String := "Routing model gave Final Answer without executing tools"

/-- Detail string of the premature-final-answer failure record. -/
def prematureDetail : String :=
  "Routing model did not follow ReAct format - gave Final Answer without calling any tools"

/-- Model of agent_loop.py line 240: inject the content model into the
parsed argument dict under the key content_llm, overwriting any value the
oracle supplied there. -/
def injectContentLLM (actionInput : JObj) (contentId : Nat) : List (String × PyVal) :=
  dictSet (actionInput.toList.map (fun p => (p.1, PyVal.jval p.2))) "content_llm" (PyVal.func contentId)

/-- Model of agent_loop.py line 314: the prompt grows by the raw reply and
an Observation line holding the dumped observation. -/
def nextPrompt (prompt response : String) (obs : JObj) : String :=
  prompt ++ "\n" ++ response ++ "\n" ++ "Observation: " ++ jsonDumps (JValue.obj obs) ++ "\n\n"

/-- The body of one iteration of the for loop of ReActExecutor.run
(agent_loop.py lines 109 to 314), with the continuation recur standing for
the remaining iterations.  The oracle llm receives the number of previous
calls in this run (modelling the internal counter of a stateful Python
callable) and the prompt; an Except.error is a raised exception caught at
line 122.  File writes and prints are I/O without effect on the state or
result.  The parsed action input is evaluated at dispatch; it is the same
pure value the code computes at line 194. -/
def runStep (llm : Nat → String → Except String String) (tools : List (String × Tool))
    (contentId : Nat) (recur : Nat → String → ExecState → RunResult × ExecState)
    (i : Nat) (prompt : String) (st : ExecState) : RunResult × ExecState :=
  match llm i prompt with
  | Except.error e =>
    (⟨"FAILED", some ("Routing model error: " ++ e), none, i + 1, none⟩, st)
  | Except.ok response0 =>
    if containsSub (truncateMultiAction response0) finalMarker = true then
      if i + 1 = 1 then
        (⟨"FAILED", some prematureMsg, some (finalAnswerText (truncateMultiAction response0)), i + 1,
            some [⟨i + 1, "premature_final_answer", JValue.str prematureDetail, none, none⟩]⟩,
         ⟨st.history ++ [Sum.inl response0], st.failures⟩)
      else
        (⟨"SUCCESS", none, some (finalAnswerText (truncateMultiAction response0)), i + 1,
            some st.failures⟩,
         ⟨st.history ++ [Sum.inl response0], st.failures⟩)
    else
      match parseAction (truncateMultiAction response0) with
      | none =>
        (⟨"FAILED", some noActionMsg, none, i + 1,
            some [⟨i + 1, "no_action_found", JValue.str noActionMsg, none,
              some (pyTake 500 (truncateMultiAction response0))⟩]⟩,
         ⟨st.history ++ [Sum.inl response0], st.failures⟩)
      | some action =>
        match dictGet tools action with
        | none =>
          (⟨"FAILED", some ("Unknown tool: " ++ action), none, i + 1, none⟩,
           ⟨st.history ++ [Sum.inl response0], st.failures⟩)
        | some tool =>
          match tool (injectContentLLM (parseActionInput (truncateMultiAction response0)) contentId) with
          | Except.error e =>
            recur (i + 1)
              (nextPrompt prompt (truncateMultiAction response0)
                (JObj.cons "error" (JValue.str e) JObj.nil))
              ⟨st.history ++ [Sum.inl response0,
                  Sum.inr (JObj.cons "error" (JValue.str e) JObj.nil)],
                st.failures ++ [⟨i + 1, "exception", JValue.str e, some action, none⟩]⟩
          | Except.ok obs =>
            match obs.get "error" with
            | some ev =>
              recur (i + 1) (nextPrompt prompt (truncateMultiAction response0) obs)
                ⟨st.history ++ [Sum.inl response0, Sum.inr obs],
                  st.failures ++ [⟨i + 1, "tool_error", ev, some action, none⟩]⟩
            | none =>
              recur (i + 1) (nextPrompt prompt (truncateMultiAction response0) obs)
                ⟨st.history ++ [Sum.inl response0, Sum.inr obs], st.failures⟩

/-- The for loop of ReActExecutor.run, by recursion on the remaining step
budget; when the budget is exhausted the max-steps result of lines 316 to
325 is returned, whose steps field is the configured maximum. -/
def runAux (llm : Nat → String → Except String String) (tools : List (String × Tool))
    (contentId maxSteps : Nat) : Nat → Nat → String → ExecState → RunResult × ExecState
  | 0, _, _, st => (⟨"FAILED", some maxStepsMsg, none, maxSteps, some st.failures⟩, st)
  | fuel + 1, i, prompt, st =>
    runStep llm tools contentId (runAux llm tools contentId maxSteps fuel) i prompt st

/-- Model of ReActExecutor.run (agent_loop.py lines 101 to 325).
reset_state from tools.py is a pass statement, so it touches nothing; the
makedirs calls are file-system I/O.  The initial prompt substitutes the spec
path for every occurrence of the brace-quoted spec_path placeholder. -/
def ReActExecutor.run (llm : Nat → String → Except String String) (tools : List (String × Tool))
    (maxSteps contentId : Nat) (systemPrompt specPath : String) (st : ExecState) :
    RunResult × ExecState :=
  runAux llm tools contentId maxSteps maxSteps 0
    (pyReplace systemPrompt ⟨openBrace :: ("spec_path".data ++ [closeBrace])⟩ specPath) st

/-- Outcome of the subprocess.run call inside OllamaLLM.call : completion
with captured stdout and stderr, or one of the caught exception classes. -/
inductive SubprocessResult where
  | completed (stdout stderr : String)
  | fileNotFound
  | timedOut
  | failed (msg : String)

/-- Model of OllamaLLM.call (llm_ollama.py lines 10 to 34): every backend
outcome is converted to a returned string; each failure path produces a
bracketed error reply, and nothing is raised (the function is total). -/
def ollamaCall (backend : String → SubprocessResult) (prompt : String) : String :=
  match backend prompt with
  | SubprocessResult.completed stdout stderr =>
    if pyStrip stdout = "" then
      "[Error: No output. stderr=" ++ pyTake 200 (pyStrip stderr) ++ "]"
    else pyStrip stdout
  | SubprocessResult.fileNotFound => "[Error: Ollama not installed. Visit https://ollama.com]"
  | SubprocessResult.timedOut =>
    "[Error: Timeout after 10 minutes. Model may be stuck or prompt too complex]"
  | SubprocessResult.failed msg => "[Error: " ++ pyTake 200 msg ++ "]"

/-- An OllamaLLM instance used as the routing capability of the loop: it
ignores the call counter and never signals an exception. -/
def ollamaOracle (backend : String → SubprocessResult) : Nat → String → Except String String :=
  fun _ prompt => Except.ok (ollamaCall backend prompt)

/-- Removal of code-fence markers, as the spec step one asks (triple
backticks with optional json tag); the repository applies the same removal
in its tools via re.sub of the pattern triple-backtick-json or
triple-backtick (tools.py line 91). -/
def stripFencesAux : Nat → List Char → List Char
  | 0, s => s
  | _ + 1, [] => []
  | fuel + 1, c :: t =>
    if "```json".data.isPrefixOf (c :: t) then stripFencesAux fuel ((c :: t).drop 7)
    else if "```".data.isPrefixOf (c :: t) then stripFencesAux fuel ((c :: t).drop 3)
    else c :: stripFencesAux fuel t

/-- Strip code-fence markers from a text. -/
def stripCodeFences (s : String) : String := ⟨stripFencesAux (s.data.length + 1) s.data⟩

/-- Locate the first opening brace after the Action Input: marker, as the
spec step two asks, returning the suffix from that brace. -/
def specLocateBrace (cs : List Char) : Option (List Char) :=
  match listFindSub actionInputMarker.data cs with
  | none => none
  | some i =>
    let after := cs.drop (i + actionInputMarker.data.length)
    match listFindSub [openBrace] after with
    | none => none
    | some j => some (after.drop j)

/-- Collapse embedded newlines to spaces, as the spec repair pass asks. -/
def collapseNewlines (cs : List Char) : List Char :=
  cs.map (fun c => if c = '\n' || c = '\r' then ' ' else c)

/-- The Action Input extraction chain claimed by the spec, section 4.1:
strip code fences, locate the first brace after the marker, cut the minimal
balanced object by brace depth, strict parse, then a repair pass replacing
single quotes and collapsing newlines, and the empty mapping on failure.
This definition follows the words of the spec, for comparison with
parseActionInput, the function the code implements. -/
def specParseActionInput (text : String) : JObj :=
  match specLocateBrace (stripCodeFences text).data with
  | none => JObj.nil
  | some body =>
    let jsonStr := if 0 < braceEnd body then body.take (braceEnd body) else body
    match jsonLoads ⟨jsonStr⟩ with
    | some (JValue.obj o) => o
    | some _ => JObj.nil
    | none =>
      match jsonLoads ⟨collapseNewlines (repairQuotes jsonStr)⟩ with
      | some (JValue.obj o) => o
      | some _ => JObj.nil
      | none => JObj.nil

/-- A tool stub that succeeds with an empty observation dict. -/
def okTool : Tool := fun _ => Except.ok JObj.nil

/-- A tool stub that reports a domain failure through the error key. -/
def errDictTool : Tool :=
  fun _ => Except.ok (JObj.cons "error" (JValue.str "boom") JObj.nil)

/-- A tool stub that raises. -/
def raiseTool : Tool := fun _ => Except.error "kaboom"

/-- A tool stub that reports which callable it received under content_llm. -/
def echoContentTool : Tool := fun inp =>
  Except.ok (JObj.cons "content_llm_id"
    (match dictGet inp "content_llm" with
     | some (PyVal.func i) => JValue.num (Int.ofNat i)
     | _ => JValue.null) JObj.nil)

/-- The empty executor state: a freshly constructed ReActExecutor. -/
def freshState : ExecState := ⟨[], []⟩

/-- Oracle stub for C1: an unregistered command name on the first round,
then a final answer. -/
def nopeOracle : Nat → String → Except String String :=
  fun i _ => Except.ok (if i = 0 then "Action: nope\nAction Input: \x7b\x7d" else "Final Answer: ok")

/-- Oracle stub for C2: a registered action on round one; on round two a
reply holding both a registered action and a final answer. -/
def bothOracle : Nat → String → Except String String :=
  fun i _ => Except.ok (if i = 0 then "Action: t1\nAction Input: \x7b\x7d"
    else "Action: t2\nAction Input: \x7b\x7d\nFinal Answer: done")

/-- Oracle stub for C6: a reply with two Action markers whose final answer
lies beyond the second marker. -/
def hiddenFinalOracle : Nat → String → Except String String :=
  fun _ _ => Except.ok "Action: t\nmid\nAction: u\nFinal Answer: done"

/-- A system prompt longer than one hundred characters, carrying the spec
path placeholder like the prompts of the repository. -/
def c7SysPrompt : String :=
  "You are a verification planner. Follow the ReAct format strictly and call one tool per round. The specification file lives at \x7bspec_path\x7d."

/-- The round-one reply of the transcript-observing oracle. -/
def c7R1 : String := "Thought: plan\nAction: t\nAction Input: \x7b\x7d"

/-- Oracle stub for C7: its second reply reports whether the prompt it was
handed still holds the full first reply and the system instructions while
being longer than one hundred characters. -/
def c7Oracle : Nat → String → Except String String := fun i p =>
  Except.ok (if i = 0 then c7R1
    else if containsSub p c7R1 = true ∧ containsSub p "verification planner" = true ∧ 100 < p.length
    then "Final Answer: full transcript retained"
    else "Final Answer: transcript was truncated")

/-- Oracle stub of the first run for C8: always the same registered action. -/
def c8OracleA : Nat → String → Except String String :=
  fun _ _ => Except.ok "Action: t\nAction Input: \x7b\x7d"

/-- Oracle stub of the second run for C8: one registered action, then a
final answer. -/
def c8OracleB : Nat → String → Except String String :=
  fun i _ => Except.ok (if i = 0 then "Action: t\nAction Input: \x7b\x7d" else "Final Answer: ok")

/-- Oracle stub for C10: the payload itself tries to supply content_llm. -/
def c10Oracle : Nat → String → Except String String :=
  fun _ _ => Except.ok "Action: echo\nAction Input: \x7b\"content_llm\": \"fromOracle\"\x7d"

lemma runAux_succ (llm : Nat → String → Except String String) (tools : List (String × Tool))
    (cid N fuel i : Nat) (p : String) (st : ExecState) :
    runAux llm tools cid N (fuel + 1) i p st =
      runStep llm tools cid (runAux llm tools cid N fuel) i p st := rfl

lemma runAux_zero (llm : Nat → String → Except String String) (tools : List (String × Tool))
    (cid N i : Nat) (p : String) (st : ExecState) :
    runAux llm tools cid N 0 i p st =
      (⟨"FAILED", some maxStepsMsg, none, N, some st.failures⟩, st) := rfl

lemma runStep_final_success (llm : Nat → String → Except String String)
    (tools : List (String × Tool)) (cid : Nat)
    (recur : Nat → String → ExecState → RunResult × ExecState)
    (i : Nat) (prompt : String) (st : ExecState) (r : String)
    (hi : 1 ≤ i) (hok : llm i prompt = Except.ok r)
    (hfa : containsSub (truncateMultiAction r) finalMarker = true) :
    runStep llm tools cid recur i prompt st =
      (⟨"SUCCESS", none, some (finalAnswerText (truncateMultiAction r)), i + 1, some st.failures⟩,
       ⟨st.history ++ [Sum.inl r], st.failures⟩) := by
  have hne : ¬ (i + 1 = 1) := by omega
  simp only [runStep, hok, hfa, if_true, hne, if_false, reduceIte]

lemma runStep_premature (llm : Nat → String → Except String String)
    (tools : List (String × Tool)) (cid : Nat)
    (recur : Nat → String → ExecState → RunResult × ExecState)
    (prompt : String) (st : ExecState) (r : String)
    (hok : llm 0 prompt = Except.ok r)
    (hfa : containsSub (truncateMultiAction r) finalMarker = true) :
    runStep llm tools cid recur 0 prompt st =
      (⟨"FAILED", some prematureMsg, some (finalAnswerText (truncateMultiAction r)), 1,
          some [⟨1, "premature_final_answer", JValue.str prematureDetail, none, none⟩]⟩,
       ⟨st.history ++ [Sum.inl r], st.failures⟩) := by
  simp only [runStep, hok, hfa, if_true, reduceIte]

lemma runStep_no_action (llm : Nat → String → Except String String)
    (tools : List (String × Tool)) (cid : Nat)
    (recur : Nat → String → ExecState → RunResult × ExecState)
    (i : Nat) (prompt : String) (st : ExecState) (r : String)
    (hok : llm i prompt = Except.ok r)
    (hfa : containsSub (truncateMultiAction r) finalMarker = false)
    (hpa : parseAction (truncateMultiAction r) = none) :
    runStep llm tools cid recur i prompt st =
      (⟨"FAILED", some noActionMsg, none, i + 1,
          some [⟨i + 1, "no_action_found", JValue.str noActionMsg, none,
            some (pyTake 500 (truncateMultiAction r))⟩]⟩,
       ⟨st.history ++ [Sum.inl r], st.failures⟩) := by
  simp only [runStep, hok, hfa, Bool.false_eq_true, if_false, hpa, reduceIte]

lemma runStep_unknown_tool (llm : Nat → String → Except String String)
    (tools : List (String × Tool)) (cid : Nat)
    (recur : Nat → String → ExecState → RunResult × ExecState)
    (i : Nat) (prompt : String) (st : ExecState) (r a : String)
    (hok : llm i prompt = Except.ok r)
    (hfa : containsSub (truncateMultiAction r) finalMarker = false)
    (hpa : parseAction (truncateMultiAction r) = some a)
    (hreg : dictGet tools a = none) :
    runStep llm tools cid recur i prompt st =
      (⟨"FAILED", some ("Unknown tool: " ++ a), none, i + 1, none⟩,
       ⟨st.history ++ [Sum.inl r], st.failures⟩) := by
  simp only [runStep, hok, hfa, Bool.false_eq_true, if_false, hpa, hreg, reduceIte]

lemma runStep_dispatch_ok (llm : Nat → String → Except String String)
    (tools : List (String × Tool)) (cid : Nat)
    (recur : Nat → String → ExecState → RunResult × ExecState)
    (i : Nat) (prompt : String) (st : ExecState) (r a : String) (tool : Tool) (obs : JObj)
    (hok : llm i prompt = Except.ok r)
    (hfa : containsSub (truncateMultiAction r) finalMarker = false)
    (hpa : parseAction (truncateMultiAction r) = some a)
    (hreg : dictGet tools a = some tool)
    (hres : tool (injectContentLLM (parseActionInput (truncateMultiAction r)) cid) = Except.ok obs)
    (hobs : obs.get "error" = none) :
    runStep llm tools cid recur i prompt st =
      recur (i + 1) (nextPrompt prompt (truncateMultiAction r) obs)
        ⟨st.history ++ [Sum.inl r, Sum.inr obs], st.failures⟩ := by
  simp only [runStep, hok, hfa, Bool.false_eq_true, if_false, hpa, hreg, hres, hobs, reduceIte]

lemma runStep_dispatch_error_key (llm : Nat → String → Except String String)
    (tools : List (String × Tool)) (cid : Nat)
    (recur : Nat → String → ExecState → RunResult × ExecState)
    (i : Nat) (prompt : String) (st : ExecState) (r a : String) (tool : Tool) (obs : JObj)
    (ev : JValue)
    (hok : llm i prompt = Except.ok r)
    (hfa : containsSub (truncateMultiAction r) finalMarker = false)
    (hpa : parseAction (truncateMultiAction r) = some a)
    (hreg : dictGet tools a = some tool)
    (hres : tool (injectContentLLM (parseActionInput (truncateMultiAction r)) cid) = Except.ok obs)
    (hobs : obs.get "error" = some ev) :
    runStep llm tools cid recur i prompt st =
      recur (i + 1) (nextPrompt prompt (truncateMultiAction r) obs)
        ⟨st.history ++ [Sum.inl r, Sum.inr obs],
          st.failures ++ [⟨i + 1, "tool_error", ev, some a, none⟩]⟩ := by
  simp only [runStep, hok, hfa, Bool.false_eq_true, if_false, hpa, hreg, hres, hobs, reduceIte]

lemma runStep_dispatch_raise (llm : Nat → String → Except String String)
    (tools : List (String × Tool)) (cid : Nat)
    (recur : Nat → String → ExecState → RunResult × ExecState)
    (i : Nat) (prompt : String) (st : ExecState) (r a e : String) (tool : Tool)
    (hok : llm i prompt = Except.ok r)
    (hfa : containsSub (truncateMultiAction r) finalMarker = false)
    (hpa : parseAction (truncateMultiAction r) = some a)
    (hreg : dictGet tools a = some tool)
    (hres : tool (injectContentLLM (parseActionInput (truncateMultiAction r)) cid) = Except.error e) :
    runStep llm tools cid recur i prompt st =
      recur (i + 1)
        (nextPrompt prompt (truncateMultiAction r) (JObj.cons "error" (JValue.str e) JObj.nil))
        ⟨st.history ++ [Sum.inl r, Sum.inr (JObj.cons "error" (JValue.str e) JObj.nil)],
          st.failures ++ [⟨i + 1, "exception", JValue.str e, some a, none⟩]⟩ := by
  simp only [runStep, hok, hfa, Bool.false_eq_true, if_false, hpa, hreg, hres, reduceIte]

lemma find?_map_replace (k : String) {α : Type} (v : α) (d : List (String × α))
    (h : d.any (fun p => p.1 == k) = true) :
    (d.map (fun p => if p.1 == k then (k, v) else p)).find? (fun p => p.1 == k) = some (k, v) := by
  induction d with
  | nil => simp at h
  | cons p t ih =>
    by_cases hp : p.1 == k
    · simp [List.find?, hp]
    · simp only [List.any_cons, Bool.or_eq_true] at h
      rcases h with h | h
      · exact absurd h hp
      · simp only [List.map_cons, hp, if_false, List.find?, Bool.false_eq_true, reduceIte]
        exact ih h

lemma find?_append_missing (k : String) {α : Type} (v : α) (d : List (String × α))
    (h : d.any (fun p => p.1 == k) = false) :
    (d ++ [(k, v)]).find? (fun p => p.1 == k) = some (k, v) := by
  induction d with
  | nil => simp [List.find?]
  | cons p t ih =>
    simp only [List.any_cons, Bool.or_eq_false_iff] at h
    simp only [List.cons_append, List.find?, h.1, Bool.false_eq_true, reduceIte]
    exact ih h.2

lemma dictGet_dictSet_self {α : Type} (d : List (String × α)) (k : String) (v : α) :
    dictGet (dictSet d k v) k = some v := by
  unfold dictGet dictSet
  cases h : d.any (fun p => p.1 == k) with
  | true =>
    simp only [if_true, reduceIte]
    rw [find?_map_replace k v d h]
    rfl
  | false =>
    simp only [Bool.false_eq_true, if_false, reduceIte]
    rw [find?_append_missing k v d h]
    rfl

/-- C10: before every dispatch, the executor stores its own content model
under the content_llm key of the parsed argument dict, overwriting any
oracle-supplied value, so the callable a tool receives there depends only on
the configured content model; and in a run whose payload tries to supply
content_llm, the dispatched tool still observes the injected model. -/
theorem c10_content_llm_override :
    (∀ (m : JObj) (cid : Nat),
      dictGet (injectContentLLM m cid) "content_llm" = some (PyVal.func cid)) ∧
    (∀ (m₁ m₂ : JObj) (cid : Nat),
      dictGet (injectContentLLM m₁ cid) "content_llm" =
        dictGet (injectContentLLM m₂ cid) "content_llm") ∧
    (ReActExecutor.run c10Oracle [("echo", echoContentTool)] 1 7 "s" "p" freshState).2.history =
      [Sum.inl "Action: echo\nAction Input: \x7b\"content_llm\": \"fromOracle\"\x7d",
       Sum.inr (JObj.cons "content_llm_id" (JValue.num 7) JObj.nil)] := by
  refine ⟨?_, ?_, rfl⟩
  · intro m cid
    exact dictGet_dictSet_self _ _ _
  · intro m₁ m₂ cid
    simp only [injectContentLLM, dictGet_dictSet_self]

lemma parseActionAux_eq_none (cs : List Char)
    (h : listContainsSub actionMarker.data cs = false) : parseActionAux cs = none := by
  induction cs with
  | nil => rfl
  | cons c t ih =>
    simp only [listContainsSub, Bool.or_eq_false_iff] at h
    simp only [parseActionAux, h.1, Bool.false_eq_true, if_false, reduceIte]
    exact ih h.2

/-- C4 (amended): the Action: marker is matched case-sensitively; a text
with no occurrence of the exact marker parses to no command name, while the
exact marker followed by a word token yields that token. -/
theorem c4_action_marker_case_sensitive :
    (∀ t : String, containsSub t "Action:" = false → parseAction t = none) ∧
    parseAction "Action: foo" = some "foo" := by
  refine ⟨?_, rfl⟩
  intro t h
  exact parseActionAux_eq_none t.data h

/-- C4 witness: the claim theorem applied to a marker in the wrong case. -/
theorem c4_witness : parseAction "ACTION: foo" = none :=
  c4_action_marker_case_sensitive.1 "ACTION: foo" (by decide)

/-- C4 counterexample: the claim asserts that the marker is matched in any
letter case, so that these two replies would parse to the name foo; the
parser of the code returns none on both. -/
theorem c4_counterexample :
    parseAction "action: build" = none ∧ parseAction "ACTION: build" = none ∧
    parseAction "Action: build" = some "build" := by
  exact ⟨rfl, rfl, rfl⟩

/-- C3 (amended): the Action Input extraction of the code is exactly the
ordered fallback chain without a code-fence pass and without newline
collapsing: capture the payload as a brace directly following the marker
and optional whitespace, strip it, cut it at the matching brace, then try
the strict JSON parse and the single-quote repair in order, and return the
empty mapping when both fail, never raising (the function is total). -/
theorem c3_extraction_chain :
    ∀ text : String, parseActionInput text = actionInputFallbackChain text := by
  intro text
  unfold parseActionInput actionInputFallbackChain
  cases h : actionInputJsonStr text with
  | none => rfl
  | some js =>
    dsimp only
    cases h1 : jsonLoads ⟨js⟩ with
    | some v =>
      simp only [firstSome, parseStrategies, h1]
      cases v <;> rfl
    | none =>
      cases h2 : jsonLoads ⟨repairQuotes js⟩ with
      | some v =>
        simp only [firstSome, parseStrategies, h1, h2]
        cases v <;> rfl
      | none =>
        simp only [firstSome, parseStrategies, h1, h2]

/-- C3 counterexample: on a fenced payload the chain claimed by the spec
strips the fences and repairs the quotes, producing the mapping a to 1,
while the extraction the code performs returns the empty mapping, because
its regex requires the brace to follow the marker directly. -/
theorem c3_counterexample :
    parseActionInput ("Action Input: ```json\n" ++
        ⟨openBrace :: squote :: 'a' :: squote :: ':' :: ' ' :: '1' :: closeBrace :: []⟩ ++ "\n```") =
      JObj.nil ∧
    specParseActionInput ("Action Input: ```json\n" ++
        ⟨openBrace :: squote :: 'a' :: squote :: ':' :: ' ' :: '1' :: closeBrace :: []⟩ ++ "\n```") =
      JObj.cons "a" (JValue.num 1) JObj.nil ∧
    parseActionInput ("Action Input: ```json\n" ++
        ⟨openBrace :: squote :: 'a' :: squote :: ':' :: ' ' :: '1' :: closeBrace :: []⟩ ++ "\n```") ≠
      specParseActionInput ("Action Input: ```json\n" ++
        ⟨openBrace :: squote :: 'a' :: squote :: ':' :: ' ' :: '1' :: closeBrace :: []⟩ ++ "\n```") := by
  refine ⟨rfl, rfl, ?_⟩
  intro h
  rw [show parseActionInput ("Action Input: ```json\n" ++
        ⟨openBrace :: squote :: 'a' :: squote :: ':' :: ' ' :: '1' :: closeBrace :: []⟩ ++ "\n```") =
      JObj.nil from rfl] at h
  rw [show specParseActionInput ("Action Input: ```json\n" ++
        ⟨openBrace :: squote :: 'a' :: squote :: ':' :: ' ' :: '1' :: closeBrace :: []⟩ ++ "\n```") =
      JObj.cons "a" (JValue.num 1) JObj.nil from rfl] at h
  exact JObj.noConfusion h

/-- C1 (amended): a round whose parsed command name is not a key of the
registry does not continue the run: it returns immediately with status
FAILED and the error Unknown tool, without recording any failure (the
returned dict has no failures key); a round with no parsable name also
returns immediately, with a single no_action_found record.  No error
Observation is fed back in either case. -/
theorem c1_unknown_command_terminates :
    (∀ (llm : Nat → String → Except String String) (tools : List (String × Tool))
        (cid N fuel i : Nat) (prompt : String) (st : ExecState) (r a : String),
      llm i prompt = Except.ok r →
      containsSub (truncateMultiAction r) finalMarker = false →
      parseAction (truncateMultiAction r) = some a →
      dictGet tools a = none →
      runAux llm tools cid N (fuel + 1) i prompt st =
        (⟨"FAILED", some ("Unknown tool: " ++ a), none, i + 1, none⟩,
         ⟨st.history ++ [Sum.inl r], st.failures⟩)) ∧
    (∀ (llm : Nat → String → Except String String) (tools : List (String × Tool))
        (cid N fuel i : Nat) (prompt : String) (st : ExecState) (r : String),
      llm i prompt = Except.ok r →
      containsSub (truncateMultiAction r) finalMarker = false →
      parseAction (truncateMultiAction r) = none →
      runAux llm tools cid N (fuel + 1) i prompt st =
        (⟨"FAILED", some noActionMsg, none, i + 1,
            some [⟨i + 1, "no_action_found", JValue.str noActionMsg, none,
              some (pyTake 500 (truncateMultiAction r))⟩]⟩,
         ⟨st.history ++ [Sum.inl r], st.failures⟩)) := by
  constructor
  · intro llm tools cid N fuel i prompt st r a hok hfa hpa hreg
    rw [runAux_succ]
    exact runStep_unknown_tool llm tools cid _ i prompt st r a hok hfa hpa hreg
  · intro llm tools cid N fuel i prompt st r hok hfa hpa
    rw [runAux_succ]
    exact runStep_no_action llm tools cid _ i prompt st r hok hfa hpa

/-- C1 counterexample: the oracle of the claim scenario, an unregistered
name on round one and a final answer on round two, does not reach round two
and does not succeed: the run returns FAILED at step one with the Unknown
tool error and no failures list at all, where the claim requires SUCCESS at
round two and one recorded unknown_command failure. -/
theorem c1_counterexample :
    (ReActExecutor.run nopeOracle [("parse_spec", okTool)] 6 0 "sys" "spec.py" freshState).1 =
      ⟨"FAILED", some "Unknown tool: nope", none, 1, none⟩ := rfl

/-- C1 witness: the claim theorem applied to a concrete unregistered name
and to a concrete reply with no action. -/
theorem c1_witness :
    runAux (fun _ _ => Except.ok "Action: zzz\nAction Input: \x7b\x7d")
        [("parse_spec", okTool)] 0 6 6 0 "p" freshState =
      (⟨"FAILED", some "Unknown tool: zzz", none, 1, none⟩,
       ⟨[Sum.inl "Action: zzz\nAction Input: \x7b\x7d"], []⟩) ∧
    runAux (fun _ _ => Except.ok "just text") [("parse_spec", okTool)] 0 6 6 0 "p" freshState =
      (⟨"FAILED", some noActionMsg, none, 1,
          some [⟨1, "no_action_found", JValue.str noActionMsg, none, some "just text"⟩]⟩,
       ⟨[Sum.inl "just text"], []⟩) :=
  ⟨c1_unknown_command_terminates.1 _ [("parse_spec", okTool)] 0 6 5 0 "p" freshState
      "Action: zzz\nAction Input: \x7b\x7d" "zzz" rfl rfl rfl rfl,
   c1_unknown_command_terminates.2 _ [("parse_spec", okTool)] 0 6 5 0 "p" freshState
      "just text" rfl rfl rfl⟩

/-- C2 (amended): the Final Answer check takes priority BEFORE any embedded
action is dispatched: a reply of a later round that holds the marker (after
multi-action truncation) ends the run at once with SUCCESS, the state gains
only the raw reply, and no tool entry or failure record is produced for an
action embedded in the same reply. -/
theorem c2_final_priority_before_dispatch :
    ∀ (llm : Nat → String → Except String String) (tools : List (String × Tool))
      (cid N fuel i : Nat) (prompt : String) (st : ExecState) (r : String),
      1 ≤ i →
      llm i prompt = Except.ok r →
      containsSub (truncateMultiAction r) finalMarker = true →
      runAux llm tools cid N (fuel + 1) i prompt st =
        (⟨"SUCCESS", none, some (finalAnswerText (truncateMultiAction r)), i + 1, some st.failures⟩,
         ⟨st.history ++ [Sum.inl r], st.failures⟩) := by
  intro llm tools cid N fuel i prompt st r hi hok hfa
  rw [runAux_succ]
  exact runStep_final_success llm tools cid _ i prompt st r hi hok hfa

/-- C2 counterexample: on round two the oracle replies with both a
registered action (a tool that would raise, and so would leave an exception
failure record if dispatched) and a final answer; the run succeeds with an
empty failures list and a history holding no second tool entry, so the
embedded action was never dispatched before the Final Answer check fired. -/
theorem c2_counterexample :
    ReActExecutor.run bothOracle [("t1", okTool), ("t2", raiseTool)] 6 0 "s" "p" freshState =
      (⟨"SUCCESS", none, some "done", 2, some []⟩,
       ⟨[Sum.inl "Action: t1\nAction Input: \x7b\x7d", Sum.inr JObj.nil,
         Sum.inl "Action: t2\nAction Input: \x7b\x7d\nFinal Answer: done"], []⟩) := rfl

/-- C2 witness: the claim theorem applied to a concrete round-two reply
holding both an action and a final answer. -/
theorem c2_witness :
    runAux (fun _ _ => Except.ok "Action: x\nAction Input: \x7b\x7d\nFinal Answer: done")
        [("x", raiseTool)] 0 5 4 1 "p" freshState =
      (⟨"SUCCESS", none, some "done", 2, some []⟩,
       ⟨[Sum.inl "Action: x\nAction Input: \x7b\x7d\nFinal Answer: done"], []⟩) :=
  c2_final_priority_before_dispatch _ [("x", raiseTool)] 0 5 3 1 "p" freshState
    "Action: x\nAction Input: \x7b\x7d\nFinal Answer: done" (by decide) rfl rfl

/-- C6 (amended): when the FIRST reply of a run contains Final Answer: after
multi-action truncation, the run ends at round one with status FAILED, the
premature message, and a single premature_final_answer record; when a reply
of any later round contains the marker after truncation, the run ends with
SUCCESS carrying the text between the first marker and the next occurrence
or the end, trimmed. -/
theorem c6_premature_vs_late_final_answer :
    (∀ (llm : Nat → String → Except String String) (tools : List (String × Tool))
        (cid fuel : Nat) (sys sp : String) (st : ExecState) (r : String),
      llm 0 (pyReplace sys ⟨openBrace :: ("spec_path".data ++ [closeBrace])⟩ sp) = Except.ok r →
      containsSub (truncateMultiAction r) finalMarker = true →
      (ReActExecutor.run llm tools (fuel + 1) cid sys sp st).1 =
        ⟨"FAILED", some prematureMsg, some (finalAnswerText (truncateMultiAction r)), 1,
          some [⟨1, "premature_final_answer", JValue.str prematureDetail, none, none⟩]⟩) ∧
    (∀ (llm : Nat → String → Except String String) (tools : List (String × Tool))
        (cid N fuel i : Nat) (prompt : String) (st : ExecState) (r : String),
      1 ≤ i →
      llm i prompt = Except.ok r →
      containsSub (truncateMultiAction r) finalMarker = true →
      (runAux llm tools cid N (fuel + 1) i prompt st).1 =
        ⟨"SUCCESS", none, some (finalAnswerText (truncateMultiAction r)), i + 1,
          some st.failures⟩) := by
  constructor
  · intro llm tools cid fuel sys sp st r hok hfa
    unfold ReActExecutor.run
    rw [runAux_succ, runStep_premature llm tools cid _ _ st r hok hfa]
  · intro llm tools cid N fuel i prompt st r hi hok hfa
    rw [runAux_succ, runStep_final_success llm tools cid _ i prompt st r hi hok hfa]

/-- C6 counterexample: the very first reply contains Final Answer: (after a
second Action: marker), yet the run is not a premature failure at round
one: the marker is cut away by the multi-action truncation, the first
action is dispatched, and the run ends by exhausting its budget. -/
theorem c6_counterexample :
    (ReActExecutor.run hiddenFinalOracle [("t", okTool)] 1 0 "s" "p" freshState).1 =
      ⟨"FAILED", some maxStepsMsg, none, 1, some []⟩ := rfl

/-- C6 witness: the claim theorem applied to a concrete premature first
reply and to a concrete later-round final answer. -/
theorem c6_witness :
    (ReActExecutor.run (fun _ _ => Except.ok "Final Answer: done") [] 1 0 "s" "p" freshState).1 =
      ⟨"FAILED", some prematureMsg, some "done", 1,
        some [⟨1, "premature_final_answer", JValue.str prematureDetail, none, none⟩]⟩ ∧
    (runAux (fun _ _ => Except.ok "Final Answer: later") [] 0 4 2 2 "p" freshState).1 =
      ⟨"SUCCESS", none, some "later", 3, some []⟩ :=
  ⟨c6_premature_vs_late_final_answer.1 _ [] 0 0 "s" "p" freshState "Final Answer: done" rfl rfl,
   c6_premature_vs_late_final_answer.2 _ [] 0 4 1 2 "p" freshState "Final Answer: later"
     (by decide) rfl rfl⟩

lemma runAux_progress_max (llm : Nat → String → Except String String)
    (tools : List (String × Tool)) (cid N : Nat)
    (H : ∀ i p, ∃ r a tool, llm i p = Except.ok r ∧
      containsSub (truncateMultiAction r) finalMarker = false ∧
      parseAction (truncateMultiAction r) = some a ∧ dictGet tools a = some tool) :
    ∀ fuel i p st,
      (runAux llm tools cid N fuel i p st).1.status = "FAILED" ∧
      (runAux llm tools cid N fuel i p st).1.steps = N ∧
      (runAux llm tools cid N fuel i p st).1.error = some maxStepsMsg := by
  intro fuel
  induction fuel with
  | zero => intro i p st; exact ⟨rfl, rfl, rfl⟩
  | succ fuel ih =>
    intro i p st
    obtain ⟨r, a, tool, hok, hfa, hpa, hreg⟩ := H i p
    cases hres : tool (injectContentLLM (parseActionInput (truncateMultiAction r)) cid) with
    | error e =>
      rw [runAux_succ,
        runStep_dispatch_raise llm tools cid _ i p st r a e tool hok hfa hpa hreg hres]
      exact ih _ _ _
    | ok obs =>
      cases hobs : obs.get "error" with
      | none =>
        rw [runAux_succ,
          runStep_dispatch_ok llm tools cid _ i p st r a tool obs hok hfa hpa hreg hres hobs]
        exact ih _ _ _
      | some ev =>
        rw [runAux_succ,
          runStep_dispatch_error_key llm tools cid _ i p st r a tool obs ev hok hfa hpa hreg hres hobs]
        exact ih _ _ _

/-- C5 (amended): for every step budget N and every oracle stub each of
whose replies avoids Final Answer: and parses to the name of a registered
tool, the run terminates with status FAILED, the max-steps message, and a
steps field equal to N; no round beyond the budget is executed, since the
loop recursion is bounded by N by construction. -/
theorem c5_max_steps_exhaustion :
    ∀ (llm : Nat → String → Except String String) (tools : List (String × Tool))
      (cid N : Nat) (sys sp : String) (st : ExecState),
      (∀ i p, ∃ r a tool, llm i p = Except.ok r ∧
        containsSub (truncateMultiAction r) finalMarker = false ∧
        parseAction (truncateMultiAction r) = some a ∧ dictGet tools a = some tool) →
      (ReActExecutor.run llm tools N cid sys sp st).1.status = "FAILED" ∧
      (ReActExecutor.run llm tools N cid sys sp st).1.steps = N ∧
      (ReActExecutor.run llm tools N cid sys sp st).1.error = some maxStepsMsg := by
  intro llm tools cid N sys sp st H
  unfold ReActExecutor.run
  exact runAux_progress_max llm tools cid N H N 0 _ st

/-- C5 counterexample: an oracle stub that never emits Final Answer: but
whose replies carry no action does not run for its full budget of two
rounds: the run stops after round one with the no-action error, where the
claim requires exactly two rounds and the max-rounds reason for every stub
that never emits the marker. -/
theorem c5_counterexample :
    (ReActExecutor.run (fun _ _ => Except.ok "hello") [] 2 0 "s" "p" freshState).1 =
      ⟨"FAILED", some noActionMsg, none, 1,
        some [⟨1, "no_action_found", JValue.str noActionMsg, none, some "hello"⟩]⟩ := rfl

/-- C5 witness: the claim theorem applied to a concrete two-step budget and
a stub that always names a registered tool. -/
theorem c5_witness :
    (ReActExecutor.run (fun _ _ => Except.ok "Action: t\nAction Input: \x7b\x7d")
        [("t", okTool)] 2 0 "s" "p" freshState).1.status = "FAILED" ∧
    (ReActExecutor.run (fun _ _ => Except.ok "Action: t\nAction Input: \x7b\x7d")
        [("t", okTool)] 2 0 "s" "p" freshState).1.steps = 2 ∧
    (ReActExecutor.run (fun _ _ => Except.ok "Action: t\nAction Input: \x7b\x7d")
        [("t", okTool)] 2 0 "s" "p" freshState).1.error = some maxStepsMsg :=
  c5_max_steps_exhaustion _ [("t", okTool)] 0 2 "s" "p" freshState
    (fun _ _ => ⟨"Action: t\nAction Input: \x7b\x7d", "t", okTool, rfl, rfl, rfl, rfl⟩)

lemma pyStartsWith_append (s t : String) : pyStartsWith (s ++ t) s = true := by
  unfold pyStartsWith
  exact List.isPrefixOf_iff_prefix.mpr (by rw [String.data_append]; exact List.prefix_append _ _)

/-- C7 (amended): the loop never truncates the transcript: the prompt of
the next round is the previous prompt extended in full by the raw reply and
an Observation line, so the previous prompt is a literal prefix of the next
one and the rendered length strictly grows without any character budget. -/
theorem c7_no_truncation_growth :
    (∀ (p r : String) (o : JObj),
      pyStartsWith (nextPrompt p r o) p = true ∧ p.length < (nextPrompt p r o).length) ∧
    (∀ (llm : Nat → String → Except String String) (tools : List (String × Tool))
        (cid N fuel i : Nat) (prompt : String) (st : ExecState) (r a : String)
        (tool : Tool) (obs : JObj),
      llm i prompt = Except.ok r →
      containsSub (truncateMultiAction r) finalMarker = false →
      parseAction (truncateMultiAction r) = some a →
      dictGet tools a = some tool →
      tool (injectContentLLM (parseActionInput (truncateMultiAction r)) cid) = Except.ok obs →
      obs.get "error" = none →
      runAux llm tools cid N (fuel + 1) i prompt st =
        runAux llm tools cid N fuel (i + 1) (nextPrompt prompt (truncateMultiAction r) obs)
          ⟨st.history ++ [Sum.inl r, Sum.inr obs], st.failures⟩) := by
  constructor
  · intro p r o
    constructor
    · have h : nextPrompt p r o =
          p ++ ("\n" ++ r ++ ("\n" ++ ("Observation: " ++ (jsonDumps (JValue.obj o) ++ "\n\n")))) := by
        unfold nextPrompt
        simp only [String.append_assoc]
      rw [h]
      exact pyStartsWith_append _ _
    · unfold nextPrompt
      simp only [String.length_append]
      have h1 : 0 < ("\n" : String).length := by decide
      omega
  · intro llm tools cid N fuel i prompt st r a tool obs hok hfa hpa hreg hres hobs
    rw [runAux_succ,
      runStep_dispatch_ok llm tools cid _ i prompt st r a tool obs hok hfa hpa hreg hres hobs]

/-- C7 counterexample: in a run whose round-two prompt is longer than one
hundred characters, the oracle itself observes that this prompt still
contains the complete system instructions and the complete round-one reply
verbatim; had any character budget replaced older rounds by a placeholder,
the stub would have answered differently. -/
theorem c7_counterexample :
    (ReActExecutor.run c7Oracle [("t", okTool)] 6 0 c7SysPrompt "examples/example_spec.py"
        freshState).1 =
      ⟨"SUCCESS", none, some "full transcript retained", 2, some []⟩ := rfl

/-- C7 witness: the claim theorem applied to a concrete prompt, reply and
observation, and to one concrete continuing round. -/
theorem c7_witness :
    (pyStartsWith (nextPrompt "p" "r" JObj.nil) "p" = true ∧
      ("p" : String).length < (nextPrompt "p" "r" JObj.nil).length) ∧
    runAux (fun _ _ => Except.ok "Action: t\nAction Input: \x7b\x7d") [("t", okTool)] 0 3 2 0 "p"
        freshState =
      runAux (fun _ _ => Except.ok "Action: t\nAction Input: \x7b\x7d") [("t", okTool)] 0 3 1 1
        (nextPrompt "p" "Action: t\nAction Input: \x7b\x7d" JObj.nil)
        ⟨[Sum.inl "Action: t\nAction Input: \x7b\x7d", Sum.inr JObj.nil], []⟩ :=
  ⟨c7_no_truncation_growth.1 "p" "r" JObj.nil,
   c7_no_truncation_growth.2 _ [("t", okTool)] 0 3 1 0 "p" freshState
     "Action: t\nAction Input: \x7b\x7d" "t" okTool JObj.nil rfl rfl rfl rfl rfl rfl⟩

/-- C8: the failure list is not re-initialized at the start of a run.  The
code calls reset_state (a pass statement) but never clears self.failures or
self.history (they are set only in init), so a second run on the same
executor returns a SUCCESS result whose failures list still holds the
tool_error record of step one of the FIRST run, although the second run
itself had no failing round. -/
theorem c8_cross_run_contamination :
    (ReActExecutor.run c8OracleA [("t", errDictTool)] 1 0 "s" "p" freshState).1.failures =
      some [⟨1, "tool_error", JValue.str "boom", some "t", none⟩] ∧
    (ReActExecutor.run c8OracleB [("t", okTool)] 6 0 "s" "p"
        (ReActExecutor.run c8OracleA [("t", errDictTool)] 1 0 "s" "p" freshState).2).1 =
      ⟨"SUCCESS", none, some "ok", 2,
        some [⟨1, "tool_error", JValue.str "boom", some "t", none⟩]⟩ := ⟨rfl, rfl⟩

lemma runAux_ollama_no_routing_error (b : String → SubprocessResult)
    (tools : List (String × Tool)) (cid N : Nat) :
    ∀ fuel i p st m, (runAux (ollamaOracle b) tools cid N fuel i p st).1.error = some m →
      pyStartsWith m "Routing model error: " = false := by
  intro fuel
  induction fuel with
  | zero =>
    intro i p st m h
    rw [runAux_zero] at h
    obtain rfl : maxStepsMsg = m := by injection h
    rfl
  | succ fuel ih =>
    intro i p st m h
    rw [runAux_succ] at h
    simp only [runStep, ollamaOracle] at h
    split at h
    · split at h
      · obtain rfl : prematureMsg = m := by injection h
        rfl
      · exact absurd h (by simp)
    · split at h
      · obtain rfl : noActionMsg = m := by injection h
        rfl
      · split at h
        · obtain rfl : "Unknown tool: " ++ _ = m := by injection h
          rfl
        · split at h
          · exact ih _ _ _ _ h
          · split at h
            · exact ih _ _ _ _ h
            · exact ih _ _ _ _ h

/-- C9: the Ollama wrapper is total and converts every backend failure (no
binary, timeout, crash, empty output) into a returned reply beginning with
the bracketed error prefix, and with this wrapper as the routing capability
no run result ever carries the routing-model-error message of the
oracle-fault branch: that branch is unreachable and backend failures flow
through the normal parse path of the round. -/
theorem c9_ollama_never_raises :
    (∀ (b : String → SubprocessResult) (p : String),
      (∃ out err, b p = SubprocessResult.completed out err ∧ pyStrip out ≠ "") ∨
      pyStartsWith (ollamaCall b p) "[Error:" = true) ∧
    (∀ (b : String → SubprocessResult) (tools : List (String × Tool)) (cid N fuel i : Nat)
        (prompt : String) (st : ExecState) (m : String),
      (runAux (ollamaOracle b) tools cid N fuel i prompt st).1.error = some m →
      pyStartsWith m "Routing model error: " = false) := by
  constructor
  · intro b p
    cases hb : b p with
    | completed out err =>
      by_cases hout : pyStrip out = ""
      · right
        unfold ollamaCall
        rw [hb]
        simp only [hout, if_pos, reduceIte]
        rfl
      · exact Or.inl ⟨out, err, rfl, hout⟩
    | fileNotFound =>
      right
      unfold ollamaCall
      rw [hb]
      exact rfl
    | timedOut =>
      right
      unfold ollamaCall
      rw [hb]
      exact rfl
    | failed msg =>
      right
      unfold ollamaCall
      rw [hb]
      exact rfl
  · exact fun b tools cid N fuel i prompt st m h =>
      runAux_ollama_no_routing_error b tools cid N fuel i prompt st m h

/-- C9 witness: the claim theorem applied to a run over a backend that
always times out; the only error its result can carry is the no-action
message, which does not bear the routing-fault prefix. -/
theorem c9_witness : pyStartsWith noActionMsg "Routing model error: " = false :=
  c9_ollama_never_raises.2 (fun _ => SubprocessResult.timedOut) [] 0 1 1 0 "p" freshState
    noActionMsg rfl
